/-
Verification of the business-planning-maker evaluation and deduplication core.

Shallow embedding of the repository's Python sources:
  - src/src/models/business_plan.py        (data model)
  - src/src/generators/business_plan_generator.py
      (_calculate_similarity, _is_duplicate)
  - src/src/evaluators/plan_evaluator.py
      (evaluate, _evaluate_feasibility, _evaluate_profitability,
       _evaluate_innovation, _calculate_percentile, rank_plans,
       filter_top_plans, CATEGORY_WEIGHTS)

Python floats are modelled by ℚ.  Python raising ZeroDivisionError is
modelled by Option: a computation that would divide by zero returns none.
`difflib.SequenceMatcher(None, a, b).ratio()` (with `isjunk=None`; the
autojunk popularity heuristic only applies to strings of 200 or more
characters and is not modelled) is embedded by the documented semantics of
`find_longest_match`: the longest matching block, ties resolved by the
earliest start in `a`, then the earliest start in `b`; the blocks are
accumulated by the usual divide-and-conquer and the ratio is
2·M / (|a| + |b|), with ratio 1 when both strings are empty.  The
recursion is implemented with an explicit fuel argument (|a| + 1 is an
upper bound on the recursion depth, as each recursive call strictly
shortens `a`) so that the definitions reduce in the kernel.
-/
import Mathlib

namespace BPM

/-! ### Data model (src/src/models/business_plan.py) -/

inductive PlanCategory where
  | SAAS | MARKETPLACE | AI_ML | FINTECH | HEALTHTECH | EDTECH
  | CLEANTECH | ECOMMERCE | CONSUMER | B2B | OTHER
deriving DecidableEq, Repr

inductive MarketStage where
  | emerging | growing | mature | declining
deriving DecidableEq, Repr

structure FinancialProjection where
  year1_revenue : ℚ
  year3_revenue : ℚ
  year5_revenue : ℚ
  initial_investment : ℚ
  break_even_months : ℤ
  profit_margin_year3 : ℚ
  customer_cac : ℚ
  customer_ltv : ℚ
deriving DecidableEq, Repr

structure MarketAnalysis where
  market_size : ℚ
  market_growth_rate : ℚ
  target_audience : String
  market_stage : MarketStage
  competitive_landscape : String
  key_success_factors : List String
deriving DecidableEq, Repr

/-- A fully populated plan: `market_analysis` and `financial_projection`
are `Optional` in the Python dataclass but every claim is about fully
populated plans, which is what the evaluator requires. -/
structure BusinessPlan where
  id : String
  title : String
  category : PlanCategory
  created_at : String
  iteration : ℤ
  problem_statement : String
  solution : String
  value_proposition : String
  business_model : String
  market_analysis : MarketAnalysis
  financial_projection : FinancialProjection
  key_milestones : List String
  team_requirements : List String
  risk_factors : List String
  mitigation_strategies : List String
  feasibility_score : ℚ
  profitability_score : ℚ
  innovation_score : ℚ
  overall_score : ℚ
  reasoning : String
  references : List String
  tags : List String
deriving DecidableEq, Repr

/-! ### Text similarity (difflib.SequenceMatcher ratio, `_calculate_similarity`) -/

/-- `str.lower()` applied characterwise. -/
def lowerStr (s : String) : List Char := s.data.map Char.toLower

/-- Length of the longest common prefix of two character lists. -/
def commonRun : List Char → List Char → Nat
  | a :: as, b :: bs => if a = b then commonRun as bs + 1 else 0
  | _, _ => 0

/-- All candidate block starts `(i, j)` in lexicographic order. -/
def candPairs (al bl : Nat) : List (Nat × Nat) :=
  (List.range al).flatMap fun i => (List.range bl).map fun j => (i, j)

/-- Fold step keeping the first strictly longest matching block, which
realizes the tie-break "earliest in a, then earliest in b". -/
def bestStep (a b : List Char) (best : Nat × Nat × Nat) (p : Nat × Nat) :
    Nat × Nat × Nat :=
  if best.2.2 < commonRun (a.drop p.1) (b.drop p.2) then
    (p.1, p.2, commonRun (a.drop p.1) (b.drop p.2))
  else best

/-- `find_longest_match` over the whole of `a` and `b`:
the triple `(i, j, k)` with `k` maximal, then `i` minimal, then `j`
minimal, and `(0, 0, 0)` when there is no match. -/
def findLongestMatch (a b : List Char) : Nat × Nat × Nat :=
  (candPairs a.length b.length).foldl (bestStep a b) (0, 0, 0)

/-- Total size of all matching blocks (the `M` of `ratio`), computed by
the divide-and-conquer of `get_matching_blocks`; `fuel` bounds the
recursion depth. -/
def totalMatchesF : Nat → List Char → List Char → Nat
  | 0, _, _ => 0
  | fuel + 1, a, b =>
    let t := findLongestMatch a b
    if t.2.2 = 0 then 0
    else
      totalMatchesF fuel (a.take t.1) (b.take t.2.1) + t.2.2 +
        totalMatchesF fuel (a.drop (t.1 + t.2.2)) (b.drop (t.2.1 + t.2.2))

def totalMatches (a b : List Char) : Nat := totalMatchesF (a.length + 1) a b

/-- `SequenceMatcher.ratio()`: `2·M / (|a| + |b|)`, and 1.0 when both
sequences are empty (difflib `_calculate_ratio`). -/
def ratioVal (a b : List Char) : ℚ :=
  if a.length + b.length = 0 then 1
  else 2 * (totalMatches a b : ℚ) / ((a.length : ℚ) + (b.length : ℚ))

/-- `BusinessPlanGenerator._calculate_similarity`. -/
def calculate_similarity (text1 text2 : String) : ℚ :=
  ratioVal (lowerStr text1) (lowerStr text2)

/-! ### Duplicate filter (`_is_duplicate`) -/

/-- The tag-overlap value computed at business_plan_generator.py line 108:
`len(set(tags) & set(plan.tags)) / max(len(set(tags)), 1)`.
Python sets are modelled by deduplicated lists. -/
def tag_overlap (tags plan_tags : List String) : ℚ :=
  ((tags.dedup.filter fun t => decide (t ∈ plan_tags)).length : ℚ) /
    (max tags.dedup.length 1 : ℚ)

/-- `BusinessPlanGenerator._is_duplicate`. -/
def is_duplicate (title : String) (tags : List String)
    (previous_plans : List BusinessPlan) (threshold : ℚ := 0.7) : Bool :=
  previous_plans.any fun plan =>
    decide (threshold ≤ calculate_similarity title plan.title) ||
      decide ((0.8 : ℚ) ≤ tag_overlap tags plan.tags)

/-- Modelled from the spec (§4.1): the set-overlap helper the spec
describes, `overlap(setA, setB) = |A ∩ B| / max(|A ∪ B|, 1)` — the
union-normalized formula.  The source code's `_is_duplicate` is compared
against this. -/
def overlap_spec (setA setB : List String) : ℚ :=
  (((setA.toFinset ∩ setB.toFinset).card : ℚ)) /
    (max (setA.toFinset ∪ setB.toFinset).card 1 : ℚ)

/-! ### Evaluator (src/src/evaluators/plan_evaluator.py) -/

/-- `PlanEvaluator.CATEGORY_WEIGHTS` as
(feasibility, profitability, innovation).  Every enum value has a row in
the dict, so the `.get(..., CATEGORY_WEIGHTS["Other"])` fallback is
unreachable and the lookup is a plain match. -/
def category_weights : PlanCategory → ℚ × ℚ × ℚ
  | .AI_ML => (0.30, 0.40, 0.30)
  | .SAAS => (0.35, 0.45, 0.20)
  | .FINTECH => (0.35, 0.40, 0.25)
  | .HEALTHTECH => (0.40, 0.35, 0.25)
  | .CLEANTECH => (0.30, 0.35, 0.35)
  | .MARKETPLACE => (0.40, 0.40, 0.20)
  | .ECOMMERCE => (0.35, 0.45, 0.20)
  | .CONSUMER => (0.30, 0.50, 0.20)
  | .EDTECH => (0.35, 0.35, 0.30)
  | .B2B => (0.35, 0.45, 0.20)
  | .OTHER => (0.35, 0.45, 0.20)

/-- `min(100.0, max(0.0, score))`. -/
def clampScore (x : ℚ) : ℚ := min 100 (max 0 x)

/-- Feasibility: market growth rate criterion (0-20). -/
def growth_points (ma : MarketAnalysis) : ℚ :=
  if 30 ≤ ma.market_growth_rate then 20
  else if 20 ≤ ma.market_growth_rate then 15
  else if 10 ≤ ma.market_growth_rate then 10
  else 5

/-- Feasibility: market stage criterion (0-15). -/
def stage_points (ma : MarketAnalysis) : ℚ :=
  match ma.market_stage with
  | .growing => 15
  | .emerging => 10
  | .mature => 5
  | .declining => 0

/-- Feasibility: break-even period criterion (0-15). -/
def break_even_points (fp : FinancialProjection) : ℚ :=
  if fp.break_even_months ≤ 18 then 15
  else if fp.break_even_months ≤ 24 then 12
  else if fp.break_even_months ≤ 36 then 8
  else 3

/-- Feasibility: LTV/CAC criterion (0-20); CAC not positive contributes
0 (the `else` branch of `customer_cac > 0`). -/
def ltv_cac_points (fp : FinancialProjection) : ℚ :=
  if 0 < fp.customer_cac then
    let ltv_cac := fp.customer_ltv / fp.customer_cac
    if 5 ≤ ltv_cac then 20
    else if 4 ≤ ltv_cac then 17
    else if 3 ≤ ltv_cac then 13
    else if 2 ≤ ltv_cac then 8
    else 3
  else 0

/-- Feasibility: ROI criterion (0-15).  The source guards
`year5_revenue > 0` and then divides by `initial_investment`: when
`year5_revenue > 0` and `initial_investment == 0` Python raises
ZeroDivisionError, modelled by `none`. -/
def roi_points (fp : FinancialProjection) : Option ℚ :=
  if 0 < fp.year5_revenue then
    if fp.initial_investment = 0 then none
    else
      let roi := (fp.year5_revenue - fp.initial_investment) /
        fp.initial_investment * 100
      some (if 500 ≤ roi then 15
        else if 300 ≤ roi then 12
        else if 200 ≤ roi then 9
        else if 100 ≤ roi then 5
        else 2)
  else some 0

/-- Feasibility: team requirements criterion (0-10). -/
def team_points (p : BusinessPlan) : ℚ :=
  if 5 ≤ p.team_requirements.length then 10
  else if 3 ≤ p.team_requirements.length then 7
  else 3

/-- Feasibility: risk mitigation criterion (0-5). -/
def risk_points (p : BusinessPlan) : ℚ :=
  if p.risk_factors.length ≤ p.mitigation_strategies.length then 5 else 2

/-- `_evaluate_feasibility` before the final clamp: baseline 50 plus the
seven criteria. -/
def feasibility_raw (p : BusinessPlan) : Option ℚ :=
  (roi_points p.financial_projection).map fun roi =>
    50 + growth_points p.market_analysis + stage_points p.market_analysis +
      break_even_points p.financial_projection +
      ltv_cac_points p.financial_projection + roi +
      team_points p + risk_points p

/-- `PlanEvaluator._evaluate_feasibility` (breakdown dict omitted: it is
write-only in the function and only feeds the report). -/
def evaluate_feasibility (p : BusinessPlan) : Option ℚ :=
  (feasibility_raw p).map clampScore

/-- Profitability: year-5 revenue criterion (0-25). -/
def year5_points (fp : FinancialProjection) : ℚ :=
  if 100000000 ≤ fp.year5_revenue then 25
  else if 50000000 ≤ fp.year5_revenue then 22
  else if 10000000 ≤ fp.year5_revenue then 18
  else if 1000000 ≤ fp.year5_revenue then 12
  else 5

/-- Profitability: year-3 profit margin criterion (0-20). -/
def margin_points (fp : FinancialProjection) : ℚ :=
  if 40 ≤ fp.profit_margin_year3 then 20
  else if 30 ≤ fp.profit_margin_year3 then 17
  else if 20 ≤ fp.profit_margin_year3 then 13
  else if 10 ≤ fp.profit_margin_year3 then 8
  else 3

/-- Profitability: year3/year1 revenue growth criterion (0-20);
`year1_revenue` not positive contributes 0. -/
def growth_ratio_points (fp : FinancialProjection) : ℚ :=
  if 0 < fp.year1_revenue then
    let growth_ratio := fp.year3_revenue / fp.year1_revenue
    if 20 ≤ growth_ratio then 20
    else if 10 ≤ growth_ratio then 17
    else if 5 ≤ growth_ratio then 13
    else if 2 ≤ growth_ratio then 8
    else 3
  else 0

/-- Profitability: market size criterion (0-20). -/
def market_size_points (ma : MarketAnalysis) : ℚ :=
  if 500 ≤ ma.market_size then 20
  else if 100 ≤ ma.market_size then 17
  else if 50 ≤ ma.market_size then 13
  else if 10 ≤ ma.market_size then 8
  else 3

/-- Profitability: growth potential criterion (0-15). -/
def growth_potential_points (ma : MarketAnalysis) : ℚ :=
  let growth_potential := ma.market_size * ma.market_growth_rate / 100
  if 50 ≤ growth_potential then 15
  else if 20 ≤ growth_potential then 12
  else if 10 ≤ growth_potential then 8
  else 3

/-- `PlanEvaluator._evaluate_profitability`: baseline 40 plus the five
criteria, clamped. -/
def evaluate_profitability (p : BusinessPlan) : ℚ :=
  clampScore (40 + year5_points p.financial_projection +
    margin_points p.financial_projection +
    growth_ratio_points p.financial_projection +
    market_size_points p.market_analysis +
    growth_potential_points p.market_analysis)

/-- Innovation: category criterion (0-20). -/
def innovation_category_points (c : PlanCategory) : ℚ :=
  match c with
  | .AI_ML | .CLEANTECH | .FINTECH | .HEALTHTECH => 20
  | _ => 10

/-- Innovation: market stage criterion (0-20). -/
def innovation_stage_points (ma : MarketAnalysis) : ℚ :=
  match ma.market_stage with
  | .emerging => 20
  | .growing => 15
  | .mature => 5
  | .declining => 0

/-- Innovation: problem statement length criterion (0-20 nominal,
actually 5-15). -/
def problem_points (p : BusinessPlan) : ℚ :=
  if 200 ≤ p.problem_statement.length then 15
  else if 100 ≤ p.problem_statement.length then 10
  else 5

/-- Is `needle` a prefix of `hay`? -/
def segStart : List Char → List Char → Bool
  | [], _ => true
  | _ :: _, [] => false
  | c :: cs, d :: ds => c = d && segStart cs ds

/-- Python substring containment `needle in hay`. -/
def hasSeg (needle : List Char) : List Char → Bool
  | [] => segStart needle []
  | c :: t => segStart needle (c :: t) || hasSeg needle t

def innovation_keywords : List String :=
  ["AI", "機械学習", "自動化", "ブロックチェーン", "新規", "独自", "特許",
    "プラットフォーム", "エコシステム", "革命", "変革"]

/-- Innovation: keyword criterion, `min(10, count * 2.5)`. -/
def keyword_points (p : BusinessPlan) : ℚ :=
  let solution_lower := lowerStr p.solution ++ lowerStr p.value_proposition
  let keyword_count :=
    (innovation_keywords.filter fun kw =>
      hasSeg (lowerStr kw) solution_lower).length
  min 10 ((keyword_count : ℚ) * 2.5)

/-- Innovation: key success factors criterion (0-15). -/
def success_factor_points (ma : MarketAnalysis) : ℚ :=
  if 4 ≤ ma.key_success_factors.length then 15
  else if 3 ≤ ma.key_success_factors.length then 10
  else 5

/-- Innovation: reasoning length criterion (0-15). -/
def reasoning_points (p : BusinessPlan) : ℚ :=
  if 200 ≤ p.reasoning.length then 15
  else if 100 ≤ p.reasoning.length then 10
  else if 50 ≤ p.reasoning.length then 5
  else 0

/-- `PlanEvaluator._evaluate_innovation`: baseline 50 plus the six
criteria, clamped. -/
def evaluate_innovation (p : BusinessPlan) : ℚ :=
  clampScore (50 + innovation_category_points p.category +
    innovation_stage_points p.market_analysis +
    problem_points p + keyword_points p +
    success_factor_points p.market_analysis + reasoning_points p)

/-- `PlanEvaluator.evaluate`: sets the three sub-scores and the
category-weighted overall score.  A ZeroDivisionError inside
`_evaluate_feasibility` propagates, so the whole call is `none` exactly
when the feasibility computation faults. -/
def evaluate (p : BusinessPlan) : Option BusinessPlan :=
  match evaluate_feasibility p with
  | none => none
  | some feasibility =>
    let profitability := evaluate_profitability p
    let innovation := evaluate_innovation p
    let w := category_weights p.category
    some { p with
      feasibility_score := feasibility
      profitability_score := profitability
      innovation_score := innovation
      overall_score := feasibility * w.1 + profitability * w.2.1 +
        innovation * w.2.2 }

/-- `PlanEvaluator._calculate_percentile`. -/
def calculate_percentile (score : ℚ) (benchmark_scores : List ℚ) : ℚ :=
  if benchmark_scores.isEmpty then 0
  else ((benchmark_scores.countP fun s => decide (s < score)) : ℚ) /
    (benchmark_scores.length : ℚ) * 100

/-- The descending comparison `sorted(plans, key=..., reverse=True)`
sorts by: `rank_rel p q` holds when `p` may come before `q`. -/
def rank_rel (p q : BusinessPlan) : Prop :=
  q.overall_score ≤ p.overall_score

instance : DecidableRel rank_rel := fun p q =>
  inferInstanceAs (Decidable (q.overall_score ≤ p.overall_score))

instance : IsTotal BusinessPlan rank_rel :=
  ⟨fun a b => le_total b.overall_score a.overall_score⟩

instance : IsTrans BusinessPlan rank_rel :=
  ⟨fun _ _ _ h1 h2 => le_trans h2 h1⟩

/-- `PlanEvaluator.rank_plans`: Python `sorted` is stable, so any stable
sort embeds it; insertion sort with `rank_rel` is stable. -/
def rank_plans (plans : List BusinessPlan) : List BusinessPlan :=
  plans.insertionSort rank_rel

/-- `PlanEvaluator.filter_top_plans`. -/
def filter_top_plans (plans : List BusinessPlan) (top_n : Nat := 5)
    (min_score : ℚ := 60.0) : List BusinessPlan :=
  ((rank_plans plans).filter fun p =>
    decide (min_score ≤ p.overall_score)).take top_n

/-! ### Concrete plans used as witnesses and counterexamples -/

/-- A fully populated plan exercising mid-table tiers of every criterion:
feasibility 83, profitability 78, innovation 90. -/
def sample_plan : BusinessPlan := {
  id := "sample"
  title := "sample plan"
  category := .SAAS
  created_at := "2026-01-01"
  iteration := 1
  problem_statement := "p"
  solution := "s"
  value_proposition := "v"
  business_model := "m"
  market_analysis := {
    market_size := 100
    market_growth_rate := 5
    target_audience := "smb"
    market_stage := .growing
    competitive_landscape := "few"
    key_success_factors := ["k1", "k2", "k3"] }
  financial_projection := {
    year1_revenue := 1000
    year3_revenue := 1500
    year5_revenue := 2000000
    initial_investment := 4000000
    break_even_months := 40
    profit_margin_year3 := 5
    customer_cac := 100
    customer_ltv := 150 }
  key_milestones := ["m1"]
  team_requirements := ["ceo"]
  risk_factors := ["r1", "r2"]
  mitigation_strategies := ["s1"]
  feasibility_score := 0
  profitability_score := 0
  innovation_score := 0
  overall_score := 0
  reasoning := "r"
  references := []
  tags := ["saas"] }

/-- `sample_plan` after evaluation (SaaS weights 0.35/0.45/0.20:
83·0.35 + 78·0.45 + 90·0.20 = 82.15). -/
def sample_eval : BusinessPlan := { sample_plan with
  feasibility_score := 83
  profitability_score := 78
  innovation_score := 90
  overall_score := 1643/20 }

/-- Financial projection hitting the top tier of every feasibility
criterion (ROI = 9900%, LTV/CAC = 5). -/
def maximal_fp : FinancialProjection := {
  year1_revenue := 1000000
  year3_revenue := 50000000
  year5_revenue := 200000000
  initial_investment := 2000000
  break_even_months := 18
  profit_margin_year3 := 40
  customer_cac := 1000
  customer_ltv := 5000 }

/-- A plan maximal in every feasibility criterion. -/
def maximal_plan : BusinessPlan := { sample_plan with
  market_analysis := { sample_plan.market_analysis with
    market_growth_rate := 35
    market_stage := .growing }
  financial_projection := maximal_fp
  team_requirements := ["a", "b", "c", "d", "e"]
  risk_factors := ["r1"]
  mitigation_strategies := ["m1"] }

/-- `maximal_plan` with CAC zeroed out, otherwise identical. -/
def maximal_plan_cac0 : BusinessPlan := { maximal_plan with
  financial_projection := { maximal_fp with customer_cac := 0 } }

/-- A fully populated plan with `initial_investment = 0` and positive
`year5_revenue`: the ROI branch divides by zero. -/
def c2_plan : BusinessPlan := { sample_plan with
  financial_projection := { maximal_fp with initial_investment := 0 } }

/-- A prior plan whose tag set is a strict superset of the candidate tag
set used in the C1 witness. -/
def c1_plan : BusinessPlan := { sample_plan with tags := ["a", "b"] }

/-- Pre-scored plan A(90) of the spec example. -/
def plan_a : BusinessPlan := { sample_plan with
  id := "A"
  overall_score := 90 }

/-- Pre-scored plan B(50) of the spec example. -/
def plan_b : BusinessPlan := { sample_plan with
  id := "B"
  overall_score := 50 }

/-! ### Facts about the similarity primitive -/

theorem commonRun_self : ∀ a : List Char, commonRun a a = a.length
  | [] => rfl
  | c :: t => by simp [commonRun, commonRun_self t]

theorem commonRun_le_left : ∀ x y : List Char, commonRun x y ≤ x.length
  | [], _ => by simp [commonRun]
  | _ :: _, [] => by simp [commonRun]
  | a :: as, b :: bs => by
    simp only [commonRun, List.length_cons]
    split
    · exact Nat.succ_le_succ (commonRun_le_left as bs)
    · exact Nat.zero_le _

theorem commonRun_le_right : ∀ x y : List Char, commonRun x y ≤ y.length
  | [], _ => by simp [commonRun]
  | _ :: _, [] => by simp [commonRun]
  | a :: as, b :: bs => by
    simp only [commonRun, List.length_cons]
    split
    · exact Nat.succ_le_succ (commonRun_le_right as bs)
    · exact Nat.zero_le _

theorem mem_candPairs {al bl i j : Nat} :
    (i, j) ∈ candPairs al bl ↔ i < al ∧ j < bl := by
  simp [candPairs]

/-- The fold result is either the initial accumulator or an exact
candidate block. -/
theorem foldl_bestStep_shape (a b : List Char) :
    ∀ (l : List (Nat × Nat)) (init : Nat × Nat × Nat),
      l.foldl (bestStep a b) init = init ∨
        ∃ p ∈ l, l.foldl (bestStep a b) init =
          (p.1, p.2, commonRun (a.drop p.1) (b.drop p.2))
  | [], _ => Or.inl rfl
  | q :: t, init => by
    rw [List.foldl_cons]
    rcases foldl_bestStep_shape a b t (bestStep a b init q) with h | ⟨p, hp, h⟩
    · rw [h]
      unfold bestStep
      by_cases hc : init.2.2 < commonRun (a.drop q.1) (b.drop q.2)
      · rw [if_pos hc]
        exact Or.inr ⟨q, List.mem_cons_self q t, rfl⟩
      · rw [if_neg hc]
        exact Or.inl rfl
    · exact Or.inr ⟨p, List.mem_cons_of_mem q hp, h⟩

theorem bestStep_k_ge_init (a b : List Char) (init : Nat × Nat × Nat)
    (q : Nat × Nat) : init.2.2 ≤ (bestStep a b init q).2.2 := by
  unfold bestStep
  by_cases hc : init.2.2 < commonRun (a.drop q.1) (b.drop q.2)
  · rw [if_pos hc]
    exact le_of_lt hc
  · rw [if_neg hc]

theorem bestStep_k_ge_cand (a b : List Char) (init : Nat × Nat × Nat)
    (q : Nat × Nat) :
    commonRun (a.drop q.1) (b.drop q.2) ≤ (bestStep a b init q).2.2 := by
  unfold bestStep
  by_cases hc : init.2.2 < commonRun (a.drop q.1) (b.drop q.2)
  · rw [if_pos hc]
  · rw [if_neg hc]
    exact le_of_not_lt hc

/-- The fold result's block length dominates the initial accumulator and
every candidate. -/
theorem foldl_bestStep_ge (a b : List Char) :
    ∀ (l : List (Nat × Nat)) (init : Nat × Nat × Nat),
      init.2.2 ≤ (l.foldl (bestStep a b) init).2.2 ∧
        ∀ p ∈ l, commonRun (a.drop p.1) (b.drop p.2) ≤
          (l.foldl (bestStep a b) init).2.2
  | [], _ => ⟨le_refl _, by simp⟩
  | q :: t, init => by
    rw [List.foldl_cons]
    obtain ⟨h1, h2⟩ := foldl_bestStep_ge a b t (bestStep a b init q)
    refine ⟨le_trans (bestStep_k_ge_init a b init q) h1, ?_⟩
    intro p hp
    rcases List.mem_cons.mp hp with rfl | hp
    · exact le_trans (bestStep_k_ge_cand a b init p) h1
    · exact h2 p hp

/-- On a self-comparison the longest match is the whole list. -/
theorem findLongestMatch_self (a : List Char) (ha : a ≠ []) :
    findLongestMatch a a = (0, 0, a.length) := by
  have hlen : 0 < a.length := List.length_pos.mpr ha
  have hmem : ((0 : Nat), (0 : Nat)) ∈ candPairs a.length a.length :=
    mem_candPairs.mpr ⟨hlen, hlen⟩
  have hge := (foldl_bestStep_ge a a (candPairs a.length a.length)
    (0, 0, 0)).2 (0, 0) hmem
  rw [List.drop_zero, commonRun_self] at hge
  rcases foldl_bestStep_shape a a (candPairs a.length a.length) (0, 0, 0)
    with h | ⟨p, hp, h⟩
  · exfalso
    rw [h] at hge
    have hge0 : a.length ≤ 0 := hge
    omega
  · unfold findLongestMatch
    rw [h] at hge ⊢
    have hcr : a.length ≤ commonRun (a.drop p.1) (a.drop p.2) := hge
    have hkl : commonRun (a.drop p.1) (a.drop p.2) ≤ a.length - p.1 :=
      le_trans (commonRun_le_left _ _) (by simp)
    have hkr : commonRun (a.drop p.1) (a.drop p.2) ≤ a.length - p.2 :=
      le_trans (commonRun_le_right _ _) (by simp)
    have hi : p.1 = 0 := by omega
    have hj : p.2 = 0 := by omega
    rw [hi, hj, List.drop_zero, commonRun_self]

theorem totalMatchesF_nil_nil : ∀ fuel, totalMatchesF fuel [] [] = 0
  | 0 => rfl
  | _ + 1 => rfl

theorem totalMatches_self (a : List Char) : totalMatches a a = a.length := by
  by_cases ha : a = []
  · subst ha; rfl
  · have hlen : 0 < a.length := List.length_pos.mpr ha
    unfold totalMatches totalMatchesF
    rw [findLongestMatch_self a ha]
    show (if a.length = 0 then 0
      else totalMatchesF a.length (a.take 0) (a.take 0) + a.length +
        totalMatchesF a.length (a.drop (0 + a.length)) (a.drop (0 + a.length)))
      = a.length
    rw [if_neg hlen.ne']
    simp only [List.take_zero, Nat.zero_add, List.drop_length,
      totalMatchesF_nil_nil]
    omega

/-- `similarity(s, s) = 1` for non-empty `s`: self-similarity of the
embedded SequenceMatcher ratio. -/
theorem calculate_similarity_self (s : String) (hs : s ≠ "") :
    calculate_similarity s s = 1 := by
  unfold calculate_similarity ratioVal
  have hdata : s.data ≠ [] := by
    intro h
    apply hs
    cases s
    simp_all
  have hlen : 0 < (lowerStr s).length := by
    simp only [lowerStr, List.length_map]
    exact List.length_pos.mpr hdata
  rw [if_neg (by omega), totalMatches_self]
  rw [div_eq_one_iff_eq]
  · ring
  · have : (0 : ℚ) < (lowerStr s).length := by exact_mod_cast hlen
    intro hcontra
    nlinarith

theorem similarity_aba_babba : calculate_similarity "aba" "babba" = 3/4 := by
  have h : totalMatches (lowerStr "aba") (lowerStr "babba") = 3 := by decide
  have l1 : (lowerStr "aba").length = 3 := by decide
  have l2 : (lowerStr "babba").length = 5 := by decide
  unfold calculate_similarity ratioVal
  rw [l1, l2, h]
  norm_num

theorem similarity_babba_aba : calculate_similarity "babba" "aba" = 1/2 := by
  have h : totalMatches (lowerStr "babba") (lowerStr "aba") = 2 := by decide
  have l1 : (lowerStr "babba").length = 5 := by decide
  have l2 : (lowerStr "aba").length = 3 := by decide
  unfold calculate_similarity ratioVal
  rw [l1, l2, h]
  norm_num

/-- C5.  The claim as stated is false: the SequenceMatcher ratio is not
symmetric.  `ratio("aba", "babba") = 0.75` (longest block "ab" at
(0, 1), plus the trailing "a") while `ratio("babba", "aba") = 0.5`
(longest block "ba" at (0, 1), after which nothing else matches).
These values agree with CPython's `difflib`. -/
theorem C5_counterexample :
    calculate_similarity "aba" "babba" = 3/4 ∧
      calculate_similarity "babba" "aba" = 1/2 ∧
      calculate_similarity "aba" "babba" ≠
        calculate_similarity "babba" "aba" := by
  refine ⟨similarity_aba_babba, similarity_babba_aba, ?_⟩
  rw [similarity_aba_babba, similarity_babba_aba]
  norm_num

/-- C5 (amended).  `similarity(s, s) = 1.0` holds for every non-empty
string, but `similarity` is not symmetric: there is a pair of strings on
which the two orders give different ratios. -/
theorem C5_amended :
    (∀ s : String, s ≠ "" → calculate_similarity s s = 1) ∧
      ∃ x y : String, calculate_similarity x y ≠ calculate_similarity y x := by
  refine ⟨calculate_similarity_self, "aba", "babba", ?_⟩
  rw [similarity_aba_babba, similarity_babba_aba]
  norm_num

/-- C5 witness: the reflexivity half of the amended claim, applied at a
concrete non-empty string. -/
theorem C5_amended_witness : calculate_similarity "ab" "ab" = 1 :=
  C5_amended.1 "ab" (by decide)

/-! ### The duplicate filter (C1, C9) -/

theorem tag_overlap_value :
    tag_overlap ["a"] ["a", "b"] = 1 := by
  have h1 : ((["a"] : List String).dedup.filter fun t =>
      decide (t ∈ (["a", "b"] : List String))).length = 1 := by decide
  have h2 : (["a"] : List String).dedup.length = 1 := by decide
  unfold tag_overlap
  rw [h1, h2]
  norm_num

/-- C1.  At the tag lists A = [a] and B = [a, b] the code's
tag-overlap is |A ∩ B| / max(|A|, 1) = 1/1 = 1, while the spec's
union-normalized formula gives 1/2: the two disagree, so the value
returned does not equal the union-normalized formula. -/
theorem C1_counterexample :
    tag_overlap ["a"] ["a", "b"] ≠ overlap_spec ["a"] ["a", "b"] := by
  have h1 : (((["a"] : List String).toFinset ∩
      (["a", "b"] : List String).toFinset).card) = 1 := by decide
  have h2 : (((["a"] : List String).toFinset ∪
      (["a", "b"] : List String).toFinset).card) = 2 := by decide
  rw [tag_overlap_value]
  unfold overlap_spec
  rw [h1, h2]
  norm_num

theorem tag_overlap_eq (A B : List String) :
    tag_overlap A B =
      ((A.toFinset ∩ B.toFinset).card : ℚ) / (max A.toFinset.card 1 : ℚ) := by
  unfold tag_overlap
  have hnum : (A.dedup.filter fun t => decide (t ∈ B)).length =
      (A.toFinset ∩ B.toFinset).card := by
    have hnd : (A.dedup.filter fun t => decide (t ∈ B)).Nodup :=
      A.nodup_dedup.filter _
    have hdedup : A.dedup.toFinset = A.toFinset := by
      ext x
      simp [List.mem_toFinset, List.mem_dedup]
    rw [← List.toFinset_card_of_nodup hnd, List.toFinset_filter, hdedup]
    congr 1
    rw [← Finset.filter_mem_eq_inter]
    apply Finset.filter_congr
    intro x _
    simp
  have hden : A.dedup.length = A.toFinset.card :=
    (List.card_toFinset A).symm
  rw [hnum, hden]

/-- C1 (amended).  The duplicate filter's tag overlap is
|A ∩ B| / max(|A|, 1) — normalized by the candidate's own tag-set size,
not by the union — and a candidate whose overlap against some prior
plan's tags reaches 0.8 is flagged as duplicate. -/
theorem C1_amended (title : String) (A B : List String) (p : BusinessPlan)
    (threshold : ℚ) (hB : p.tags = B)
    (h8 : (0.8 : ℚ) ≤ tag_overlap A B) :
    tag_overlap A B =
        ((A.toFinset ∩ B.toFinset).card : ℚ) /
          (max A.toFinset.card 1 : ℚ) ∧
      is_duplicate title A [p] threshold = true := by
  refine ⟨tag_overlap_eq A B, ?_⟩
  unfold is_duplicate
  simp [hB, h8]

/-- C1 witness: the amended statement applied at A = [a] against a
stored plan with tags [a, b], where the overlap is 1 ≥ 0.8. -/
theorem C1_amended_witness :
    tag_overlap ["a"] ["a", "b"] =
        (((["a"] : List String).toFinset ∩
            (["a", "b"] : List String).toFinset).card : ℚ) /
          (max (["a"] : List String).toFinset.card 1 : ℚ) ∧
      is_duplicate "unrelated" ["a"] [c1_plan] 0.7 = true :=
  C1_amended "unrelated" ["a"] ["a", "b"] c1_plan 0.7 rfl
    (by rw [tag_overlap_value]; norm_num)

/-- C9.  With an empty history `_is_duplicate` returns `False` for every
title, tag list and threshold: the guard `if not previous_plans` fires
before any similarity computation. -/
theorem C9_empty_history (title : String) (tags : List String)
    (threshold : ℚ) : is_duplicate title tags [] threshold = false := rfl

/-! ### Percentile (C6) -/

/-- C6.  For a non-empty benchmark list the percentile is
`count-strictly-below / size × 100`; a score lower-or-equal to every
benchmark entry (in particular the minimum plan of its own benchmark
set) gets 0, and a score strictly above every entry gets 100. -/
theorem C6_percentile (score : ℚ) (bs : List ℚ) (hne : bs ≠ []) :
    calculate_percentile score bs =
        ((bs.countP fun s => decide (s < score)) : ℚ) /
          (bs.length : ℚ) * 100 ∧
      ((∀ b ∈ bs, score ≤ b) → calculate_percentile score bs = 0) ∧
      ((∀ b ∈ bs, b < score) → calculate_percentile score bs = 100) := by
  have hempty : bs.isEmpty = false := by
    simpa [List.isEmpty_iff] using hne
  have hlen : (0 : ℚ) < (bs.length : ℚ) := by
    have := List.length_pos.mpr hne
    exact_mod_cast this
  unfold calculate_percentile
  rw [hempty]
  refine ⟨rfl, ?_, ?_⟩
  · intro hall
    have hcount : bs.countP (fun s => decide (s < score)) = 0 := by
      rw [List.countP_eq_zero]
      intro b hb
      simpa using not_lt_of_le (hall b hb)
    rw [hcount]
    norm_num
  · intro hall
    have hcount : bs.countP (fun s => decide (s < score)) = bs.length := by
      rw [List.countP_eq_length]
      intro b hb
      simpa using hall b hb
    rw [hcount, div_self (ne_of_gt hlen)]
    norm_num

/-- C6 witness: a score below every benchmark entry has percentile 0. -/
theorem C6_percentile_witness : calculate_percentile 5 [10, 20] = 0 :=
  (C6_percentile 5 [10, 20] (by decide)).2.1 (by
    intro b hb
    rcases List.mem_cons.mp hb with rfl | hb
    · norm_num
    · rcases List.mem_cons.mp hb with rfl | hb
      · norm_num
      · cases hb)

/-! ### Evaluator range and frame facts (C2, C3, C8, C10) -/

theorem clampScore_nonneg (x : ℚ) : 0 ≤ clampScore x :=
  le_min (by norm_num) (le_max_left 0 x)

theorem clampScore_le_100 (x : ℚ) : clampScore x ≤ 100 :=
  min_le_left _ _

/-- Every row of the static weight table has three non-negative entries
summing to exactly 1. -/
theorem weights_valid (c : PlanCategory) :
    0 ≤ (category_weights c).1 ∧ 0 ≤ (category_weights c).2.1 ∧
      0 ≤ (category_weights c).2.2 ∧
      (category_weights c).1 + (category_weights c).2.1 +
        (category_weights c).2.2 = 1 := by
  cases c <;> norm_num [category_weights]

/-- A convex combination lies between the minimum and the maximum of its
arguments. -/
theorem convex_min_max (w1 w2 w3 x y z : ℚ) (h1 : 0 ≤ w1) (h2 : 0 ≤ w2)
    (h3 : 0 ≤ w3) (hsum : w1 + w2 + w3 = 1) :
    min x (min y z) ≤ x * w1 + y * w2 + z * w3 ∧
      x * w1 + y * w2 + z * w3 ≤ max x (max y z) := by
  have hmx : min x (min y z) ≤ x := min_le_left _ _
  have hmy : min x (min y z) ≤ y :=
    le_trans (min_le_right _ _) (min_le_left _ _)
  have hmz : min x (min y z) ≤ z :=
    le_trans (min_le_right _ _) (min_le_right _ _)
  have hxM : x ≤ max x (max y z) := le_max_left _ _
  have hyM : y ≤ max x (max y z) :=
    le_trans (le_max_left _ _) (le_max_right _ _)
  have hzM : z ≤ max x (max y z) :=
    le_trans (le_max_right _ _) (le_max_right _ _)
  constructor
  · have e1 := mul_le_mul_of_nonneg_right hmx h1
    have e2 := mul_le_mul_of_nonneg_right hmy h2
    have e3 := mul_le_mul_of_nonneg_right hmz h3
    have hs : min x (min y z) * w1 + min x (min y z) * w2 +
        min x (min y z) * w3 = min x (min y z) := by
      linear_combination min x (min y z) * hsum
    linarith
  · have e1 := mul_le_mul_of_nonneg_right hxM h1
    have e2 := mul_le_mul_of_nonneg_right hyM h2
    have e3 := mul_le_mul_of_nonneg_right hzM h3
    have hs : max x (max y z) * w1 + max x (max y z) * w2 +
        max x (max y z) * w3 = max x (max y z) := by
      linear_combination max x (max y z) * hsum
    linarith

/-- Successful evaluation characterized: the result is the input plan
with exactly the four score fields replaced. -/
theorem evaluate_eq_some (p p' : BusinessPlan) (h : evaluate p = some p') :
    ∃ f, evaluate_feasibility p = some f ∧
      p' = { p with
        feasibility_score := f
        profitability_score := evaluate_profitability p
        innovation_score := evaluate_innovation p
        overall_score := f * (category_weights p.category).1 +
          evaluate_profitability p * (category_weights p.category).2.1 +
          evaluate_innovation p * (category_weights p.category).2.2 } := by
  unfold evaluate at h
  cases hf : evaluate_feasibility p with
  | none => rw [hf] at h; exact absurd h (by simp)
  | some f =>
    rw [hf] at h
    have h2 : some { p with
        feasibility_score := f
        profitability_score := evaluate_profitability p
        innovation_score := evaluate_innovation p
        overall_score := f * (category_weights p.category).1 +
          evaluate_profitability p * (category_weights p.category).2.1 +
          evaluate_innovation p * (category_weights p.category).2.2 }
          = some p' := h
    exact ⟨f, rfl, (Option.some.inj h2).symm⟩

theorem evaluate_feasibility_eq_some (p : BusinessPlan) (f : ℚ)
    (hf : evaluate_feasibility p = some f) :
    ∃ r, feasibility_raw p = some r ∧ f = clampScore r := by
  unfold evaluate_feasibility at hf
  cases hr : feasibility_raw p with
  | none => rw [hr] at hf; exact absurd hf (by simp)
  | some r =>
    rw [hr] at hf
    have h2 : some (clampScore r) = some f := hf
    exact ⟨r, rfl, (Option.some.inj h2).symm⟩

/-- The concrete `sample_plan` evaluates to `sample_eval`
(feasibility 83, profitability 78, innovation 90, overall 82.15). -/
theorem evaluate_sample : evaluate sample_plan = some sample_eval := by
  have hkw : (innovation_keywords.filter fun kw =>
      hasSeg (lowerStr kw) (lowerStr "s" ++ lowerStr "v")).length = 0 := by
    decide
  have hps : ("p" : String).length = 1 := by decide
  have hrs : ("r" : String).length = 1 := by decide
  norm_num [evaluate, evaluate_feasibility, feasibility_raw, roi_points,
    growth_points, stage_points, break_even_points, ltv_cac_points,
    team_points, risk_points, evaluate_profitability, year5_points,
    margin_points, growth_ratio_points, market_size_points,
    growth_potential_points, evaluate_innovation,
    innovation_category_points, innovation_stage_points, problem_points,
    keyword_points, success_factor_points, reasoning_points, clampScore,
    category_weights, sample_plan, sample_eval, hkw, hps, hrs]

/-- C2.  The claim is right about the CAC = 0 and year1 = 0 guards, but
the ROI criterion guards `year5_revenue > 0` and then divides by
`initial_investment`: a fully populated plan with
`initial_investment = 0` and `year5_revenue > 0` makes
`_evaluate_feasibility` raise ZeroDivisionError (`evaluate` returns
`none` in the embedding) instead of contributing zero. -/
theorem C2_division_fault : evaluate c2_plan = none := by
  unfold evaluate evaluate_feasibility feasibility_raw roi_points
  norm_num [c2_plan, maximal_fp, sample_plan]

/-- C3.  Whenever `evaluate` completes, each sub-score is the clamp of
its raw total and so lies in [0, 100], and the overall score is a convex
combination of the sub-scores and so lies in [0, 100] as well. -/
theorem C3_scores_in_range (p p' : BusinessPlan)
    (h : evaluate p = some p') :
    (0 ≤ p'.feasibility_score ∧ p'.feasibility_score ≤ 100) ∧
      (0 ≤ p'.profitability_score ∧ p'.profitability_score ≤ 100) ∧
      (0 ≤ p'.innovation_score ∧ p'.innovation_score ≤ 100) ∧
      (0 ≤ p'.overall_score ∧ p'.overall_score ≤ 100) := by
  obtain ⟨f, hf, rfl⟩ := evaluate_eq_some p p' h
  obtain ⟨r, hr, hfr⟩ := evaluate_feasibility_eq_some p f hf
  subst hfr
  have hprof0 : 0 ≤ evaluate_profitability p := clampScore_nonneg _
  have hprof1 : evaluate_profitability p ≤ 100 := clampScore_le_100 _
  have hinn0 : 0 ≤ evaluate_innovation p := clampScore_nonneg _
  have hinn1 : evaluate_innovation p ≤ 100 := clampScore_le_100 _
  obtain ⟨hw1, hw2, hw3, hsum⟩ := weights_valid p.category
  obtain ⟨hlo, hhi⟩ := convex_min_max (category_weights p.category).1
    (category_weights p.category).2.1 (category_weights p.category).2.2
    (clampScore r) (evaluate_profitability p) (evaluate_innovation p)
    hw1 hw2 hw3 hsum
  refine ⟨⟨clampScore_nonneg r, clampScore_le_100 r⟩, ⟨hprof0, hprof1⟩,
    ⟨hinn0, hinn1⟩, ?_, ?_⟩
  · have hmin : (0 : ℚ) ≤ min (clampScore r)
        (min (evaluate_profitability p) (evaluate_innovation p)) :=
      le_min (clampScore_nonneg r) (le_min hprof0 hinn0)
    exact le_trans hmin hlo
  · have hmax : max (clampScore r)
        (max (evaluate_profitability p) (evaluate_innovation p)) ≤ 100 :=
      max_le (clampScore_le_100 r) (max_le hprof1 hinn1)
    exact le_trans hhi hmax

/-- C3 witness: the range facts at the concrete evaluated sample plan. -/
theorem C3_scores_in_range_witness :
    (0 ≤ sample_eval.feasibility_score ∧
        sample_eval.feasibility_score ≤ 100) ∧
      (0 ≤ sample_eval.profitability_score ∧
        sample_eval.profitability_score ≤ 100) ∧
      (0 ≤ sample_eval.innovation_score ∧
        sample_eval.innovation_score ≤ 100) ∧
      (0 ≤ sample_eval.overall_score ∧ sample_eval.overall_score ≤ 100) :=
  C3_scores_in_range sample_plan sample_eval evaluate_sample

/-- C10.  The overall score is a convex combination of the three
sub-scores (every weight row is non-negative and sums to 1), hence lies
between their minimum and their maximum. -/
theorem C10_overall_convex (p p' : BusinessPlan)
    (h : evaluate p = some p') :
    min p'.feasibility_score
        (min p'.profitability_score p'.innovation_score) ≤
      p'.overall_score ∧
      p'.overall_score ≤
        max p'.feasibility_score
          (max p'.profitability_score p'.innovation_score) := by
  obtain ⟨f, hf, rfl⟩ := evaluate_eq_some p p' h
  obtain ⟨hw1, hw2, hw3, hsum⟩ := weights_valid p.category
  exact convex_min_max (category_weights p.category).1
    (category_weights p.category).2.1 (category_weights p.category).2.2
    f (evaluate_profitability p) (evaluate_innovation p) hw1 hw2 hw3 hsum

/-- C10 witness: at the evaluated sample plan,
min(83, 78, 90) = 78 ≤ 82.15 ≤ 90 = max(83, 78, 90). -/
theorem C10_overall_convex_witness :
    min sample_eval.feasibility_score
        (min sample_eval.profitability_score
          sample_eval.innovation_score) ≤ sample_eval.overall_score ∧
      sample_eval.overall_score ≤
        max sample_eval.feasibility_score
          (max sample_eval.profitability_score
            sample_eval.innovation_score) :=
  C10_overall_convex sample_plan sample_eval evaluate_sample

/-- The scoring functions only read non-score fields, so overwriting the
four score fields leaves every criterion unchanged. -/
theorem evaluate_feasibility_score_update (p : BusinessPlan)
    (a b c d : ℚ) :
    evaluate_feasibility { p with
      feasibility_score := a
      profitability_score := b
      innovation_score := c
      overall_score := d } = evaluate_feasibility p := rfl

/-- C8.  `evaluate` replaces exactly the four score fields and preserves
every identity, narrative, market-analysis, financial-projection,
execution and metadata field; evaluating the result again overwrites the
scores with the same values (it never accumulates), giving back the same
plan. -/
theorem C8_frame (p p' : BusinessPlan) (h : evaluate p = some p') :
    p'.id = p.id ∧ p'.title = p.title ∧ p'.category = p.category ∧
      p'.created_at = p.created_at ∧ p'.iteration = p.iteration ∧
      p'.problem_statement = p.problem_statement ∧
      p'.solution = p.solution ∧
      p'.value_proposition = p.value_proposition ∧
      p'.business_model = p.business_model ∧
      p'.market_analysis = p.market_analysis ∧
      p'.financial_projection = p.financial_projection ∧
      p'.key_milestones = p.key_milestones ∧
      p'.team_requirements = p.team_requirements ∧
      p'.risk_factors = p.risk_factors ∧
      p'.mitigation_strategies = p.mitigation_strategies ∧
      p'.reasoning = p.reasoning ∧ p'.references = p.references ∧
      p'.tags = p.tags ∧
      (∀ p'' : BusinessPlan, evaluate p' = some p'' → p'' = p') := by
  obtain ⟨f, hf, rfl⟩ := evaluate_eq_some p p' h
  refine ⟨rfl, rfl, rfl, rfl, rfl, rfl, rfl, rfl, rfl, rfl, rfl, rfl,
    rfl, rfl, rfl, rfl, rfl, rfl, ?_⟩
  intro p'' h2
  obtain ⟨f2, hf2, hp''⟩ := evaluate_eq_some _ p'' h2
  rw [evaluate_feasibility_score_update, hf] at hf2
  have hff : f = f2 := Option.some.inj hf2
  subst hff
  rw [hp'']
  exact rfl

/-- C8 witness: the frame facts at the concrete evaluated sample plan,
including that re-evaluating `sample_eval` reproduces `sample_eval`. -/
theorem C8_frame_witness :
    sample_eval.id = sample_plan.id ∧
      sample_eval.title = sample_plan.title ∧
      sample_eval.category = sample_plan.category ∧
      sample_eval.created_at = sample_plan.created_at ∧
      sample_eval.iteration = sample_plan.iteration ∧
      sample_eval.problem_statement = sample_plan.problem_statement ∧
      sample_eval.solution = sample_plan.solution ∧
      sample_eval.value_proposition = sample_plan.value_proposition ∧
      sample_eval.business_model = sample_plan.business_model ∧
      sample_eval.market_analysis = sample_plan.market_analysis ∧
      sample_eval.financial_projection = sample_plan.financial_projection ∧
      sample_eval.key_milestones = sample_plan.key_milestones ∧
      sample_eval.team_requirements = sample_plan.team_requirements ∧
      sample_eval.risk_factors = sample_plan.risk_factors ∧
      sample_eval.mitigation_strategies =
        sample_plan.mitigation_strategies ∧
      sample_eval.reasoning = sample_plan.reasoning ∧
      sample_eval.references = sample_plan.references ∧
      sample_eval.tags = sample_plan.tags ∧
      (∀ p'' : BusinessPlan, evaluate sample_eval = some p'' →
        p'' = sample_eval) :=
  C8_frame sample_plan sample_eval evaluate_sample

/-! ### The CAC = 0 feasibility delta (C4) -/

theorem growth_points_max (ma : MarketAnalysis)
    (h : 30 ≤ ma.market_growth_rate) : growth_points ma = 20 := by
  unfold growth_points
  rw [if_pos h]

theorem stage_points_growing (ma : MarketAnalysis)
    (h : ma.market_stage = MarketStage.growing) : stage_points ma = 15 := by
  unfold stage_points
  rw [h]

theorem break_even_points_max (fp : FinancialProjection)
    (h : fp.break_even_months ≤ 18) : break_even_points fp = 15 := by
  unfold break_even_points
  rw [if_pos h]

theorem ltv_cac_points_zero (fp : FinancialProjection)
    (h : fp.customer_cac = 0) : ltv_cac_points fp = 0 := by
  unfold ltv_cac_points
  rw [if_neg]
  rw [h]
  exact lt_irrefl 0

theorem ltv_cac_points_max (fp : FinancialProjection)
    (h0 : 0 < fp.customer_cac)
    (h5 : 5 ≤ fp.customer_ltv / fp.customer_cac) :
    ltv_cac_points fp = 20 := by
  unfold ltv_cac_points
  rw [if_pos h0]
  dsimp only
  rw [if_pos h5]

theorem roi_points_max (fp : FinancialProjection)
    (hy5 : 0 < fp.year5_revenue) (hinv : 0 < fp.initial_investment)
    (hroi : 500 ≤ (fp.year5_revenue - fp.initial_investment) /
      fp.initial_investment * 100) : roi_points fp = some 15 := by
  unfold roi_points
  rw [if_pos hy5, if_neg (ne_of_gt hinv)]
  dsimp only
  rw [if_pos hroi]

theorem team_points_max (p : BusinessPlan)
    (h : 5 ≤ p.team_requirements.length) : team_points p = 10 := by
  unfold team_points
  rw [if_pos h]

theorem risk_points_max (p : BusinessPlan)
    (h : p.risk_factors.length ≤ p.mitigation_strategies.length) :
    risk_points p = 5 := by
  unfold risk_points
  rw [if_pos h]

theorem clampScore_130 : clampScore 130 = 100 := by
  unfold clampScore
  rw [max_eq_right (by norm_num), min_eq_left (by norm_num)]

theorem clampScore_150 : clampScore 150 = 100 := by
  unfold clampScore
  rw [max_eq_right (by norm_num), min_eq_left (by norm_num)]

/-- C4 (amended).  On plans whose other feasibility criteria are all
maximal, setting CAC = 0 lowers the pre-clamp raw feasibility total by
exactly the 20-point LTV/CAC contribution (130 versus 150), but both raw
totals exceed 100, so the returned (clamped) feasibility score is 100 in
both cases and the returned scores do not differ at all. -/
theorem C4_amended (p0 p1 : BusinessPlan)
    (hma : p0.market_analysis = p1.market_analysis)
    (htr : p0.team_requirements = p1.team_requirements)
    (hrf : p0.risk_factors = p1.risk_factors)
    (hms : p0.mitigation_strategies = p1.mitigation_strategies)
    (hy5 : p0.financial_projection.year5_revenue =
      p1.financial_projection.year5_revenue)
    (hinv : p0.financial_projection.initial_investment =
      p1.financial_projection.initial_investment)
    (hbe : p0.financial_projection.break_even_months =
      p1.financial_projection.break_even_months)
    (hcac0 : p0.financial_projection.customer_cac = 0)
    (hcac1 : 0 < p1.financial_projection.customer_cac)
    (hltv : 5 ≤ p1.financial_projection.customer_ltv /
      p1.financial_projection.customer_cac)
    (hgrowth : 30 ≤ p1.market_analysis.market_growth_rate)
    (hstage : p1.market_analysis.market_stage = MarketStage.growing)
    (hbem : p1.financial_projection.break_even_months ≤ 18)
    (hy5pos : 0 < p1.financial_projection.year5_revenue)
    (hinvpos : 0 < p1.financial_projection.initial_investment)
    (hroi : 500 ≤ (p1.financial_projection.year5_revenue -
        p1.financial_projection.initial_investment) /
      p1.financial_projection.initial_investment * 100)
    (hteam : 5 ≤ p1.team_requirements.length)
    (hrisk : p1.risk_factors.length ≤ p1.mitigation_strategies.length) :
    feasibility_raw p0 = some 130 ∧ feasibility_raw p1 = some 150 ∧
      evaluate_feasibility p0 = some 100 ∧
      evaluate_feasibility p1 = some 100 := by
  have hroi0 : 500 ≤ (p0.financial_projection.year5_revenue -
      p0.financial_projection.initial_investment) /
      p0.financial_projection.initial_investment * 100 := by
    rw [hy5, hinv]
    exact hroi
  have h1 : feasibility_raw p1 = some 150 := by
    unfold feasibility_raw
    rw [roi_points_max _ hy5pos hinvpos hroi,
      growth_points_max _ hgrowth, stage_points_growing _ hstage,
      break_even_points_max _ hbem, ltv_cac_points_max _ hcac1 hltv,
      team_points_max _ hteam, risk_points_max _ hrisk,
      Option.map_some']
    norm_num
  have h0 : feasibility_raw p0 = some 130 := by
    unfold feasibility_raw
    rw [roi_points_max p0.financial_projection
        (by rw [hy5]; exact hy5pos) (by rw [hinv]; exact hinvpos) hroi0,
      hma, growth_points_max _ hgrowth, stage_points_growing _ hstage,
      break_even_points_max p0.financial_projection
        (by rw [hbe]; exact hbem),
      ltv_cac_points_zero _ hcac0,
      team_points_max p0 (by rw [htr]; exact hteam),
      risk_points_max p0 (by rw [hrf, hms]; exact hrisk),
      Option.map_some']
    norm_num
  have hc0 : evaluate_feasibility p0 = some 100 := by
    unfold evaluate_feasibility
    rw [h0, Option.map_some', clampScore_130]
  have hc1 : evaluate_feasibility p1 = some 100 := by
    unfold evaluate_feasibility
    rw [h1, Option.map_some', clampScore_150]
  exact ⟨h0, h1, hc0, hc1⟩

/-- C4.  The claim fails on the code: with every other criterion
maximal, the CAC > 0 plan scores raw 150 and the CAC = 0 plan raw 130,
and both clamp to a returned feasibility score of 100.0 — the returned
score is not 20 points lower (it is not lower at all). -/
theorem C4_counterexample :
    evaluate_feasibility maximal_plan = some 100 ∧
      evaluate_feasibility maximal_plan_cac0 = some 100 ∧
      ¬ evaluate_feasibility maximal_plan_cac0 = some ((100 : ℚ) - 20) := by
  have h1 : evaluate_feasibility maximal_plan = some 100 := by
    norm_num [evaluate_feasibility, feasibility_raw, roi_points,
      growth_points, stage_points, break_even_points, ltv_cac_points,
      team_points, risk_points, clampScore, maximal_plan, maximal_fp,
      sample_plan]
  have h0 : evaluate_feasibility maximal_plan_cac0 = some 100 := by
    norm_num [evaluate_feasibility, feasibility_raw, roi_points,
      growth_points, stage_points, break_even_points, ltv_cac_points,
      team_points, risk_points, clampScore, maximal_plan_cac0,
      maximal_plan, maximal_fp, sample_plan]
  refine ⟨h1, h0, ?_⟩
  rw [h0]
  intro hcontra
  have h := Option.some.inj hcontra
  norm_num at h

/-- C4 witness: the amended statement at the concrete maximal plans. -/
theorem C4_amended_witness :
    feasibility_raw maximal_plan_cac0 = some 130 ∧
      feasibility_raw maximal_plan = some 150 ∧
      evaluate_feasibility maximal_plan_cac0 = some 100 ∧
      evaluate_feasibility maximal_plan = some 100 :=
  C4_amended maximal_plan_cac0 maximal_plan rfl rfl rfl rfl rfl rfl rfl
    rfl (by norm_num [maximal_plan, maximal_fp])
    (by norm_num [maximal_plan, maximal_fp])
    (by norm_num [maximal_plan, maximal_fp, sample_plan])
    rfl (by decide) (by norm_num [maximal_plan, maximal_fp])
    (by norm_num [maximal_plan, maximal_fp])
    (by norm_num [maximal_plan, maximal_fp]) (by decide) (by decide)

/-! ### Ranking and filtering (C7) -/

/-- Inserting `x` only passes over strictly higher-scored plans, so the
filter at any fixed score value is preserved (with `x` in front when it
has that value): this is exactly stability for the descending sort. -/
theorem filter_orderedInsert (x : BusinessPlan) (c : ℚ) :
    ∀ l : List BusinessPlan,
      (List.orderedInsert rank_rel x l).filter
          (fun p => decide (p.overall_score = c)) =
        if x.overall_score = c then
          x :: l.filter (fun p => decide (p.overall_score = c))
        else l.filter (fun p => decide (p.overall_score = c))
  | [] => by
    by_cases hx : x.overall_score = c
    · rw [if_pos hx]
      simp [hx]
    · rw [if_neg hx]
      simp [hx]
  | b :: t => by
    rw [List.orderedInsert]
    by_cases hr : rank_rel x b
    · rw [if_pos hr]
      by_cases hx : x.overall_score = c
      · rw [if_pos hx]
        simp [List.filter_cons, hx]
      · rw [if_neg hx]
        simp [List.filter_cons, hx]
    · rw [if_neg hr]
      have hlt : x.overall_score < b.overall_score := lt_of_not_le hr
      rw [List.filter_cons, filter_orderedInsert x c t, List.filter_cons]
      by_cases hx : x.overall_score = c
      · have hbc : ¬ b.overall_score = c := by
          rw [← hx]
          exact ne_of_gt hlt
        rw [if_pos hx, if_pos hx]
        simp [hbc]
      · rw [if_neg hx, if_neg hx]

/-- Sorting preserves the filter at any fixed score value: stability. -/
theorem filter_insertionSort (c : ℚ) : ∀ l : List BusinessPlan,
    (l.insertionSort rank_rel).filter
        (fun p => decide (p.overall_score = c)) =
      l.filter (fun p => decide (p.overall_score = c))
  | [] => rfl
  | x :: t => by
    rw [List.insertionSort, filter_orderedInsert,
      filter_insertionSort c t, List.filter_cons]
    by_cases hx : x.overall_score = c
    · rw [if_pos hx]
      simp [hx]
    · rw [if_neg hx]
      simp [hx]

/-- C7.  `rank_plans` is a permutation of its input, sorted descending
by overall score, and stable (for every score value the plans holding
that value keep their input order); `filter_top_plans` is the ranking
restricted to scores ≥ min_score and truncated to top_n; and the spec
example filter_top([A(90), B(50)], 5, 60) = [A] holds. -/
theorem C7_rank_filter :
    (∀ plans : List BusinessPlan,
        (rank_plans plans).Perm plans ∧
          (rank_plans plans).Sorted
            (fun p q => q.overall_score ≤ p.overall_score) ∧
          (∀ c : ℚ, (rank_plans plans).filter
              (fun p => decide (p.overall_score = c)) =
            plans.filter (fun p => decide (p.overall_score = c))) ∧
          (∀ (top_n : Nat) (min_score : ℚ),
            filter_top_plans plans top_n min_score =
              ((rank_plans plans).filter fun p =>
                decide (min_score ≤ p.overall_score)).take top_n)) ∧
      filter_top_plans [plan_a, plan_b] 5 60 = [plan_a] := by
  refine ⟨fun plans => ⟨List.perm_insertionSort rank_rel plans,
    List.sorted_insertionSort rank_rel plans,
    fun c => filter_insertionSort c plans,
    fun _ _ => rfl⟩, ?_⟩
  decide

end BPM
